import Mathlib

/-!
Formal model of the EXIF coordinate-extraction pipeline
(`core/geo.py`, `core/exif_reader.py`, `procesar_exif_v2.2.py`).

Python floats are modelled as exact rationals extended with the three
non-finite values (`inf`, `-inf`, `nan`); Python byte strings as lists of
`Fin 256`; fallible Python functions (those that raise) as `Except`/`Option`
valued Lean functions, where `Option.none` stands for the code's explicit
failure results (`None`, the all-`None` tuple) and `Except.error` for a
raised exception.
-/

/-- A Python `float` value: either a finite value (modelled exactly as a
rational) or one of the non-finite IEEE values. -/
inductive PyFloat
  | fin (q : ℚ)
  | inf
  | ninf
  | nan
  deriving DecidableEq

/-- Python `math.isfinite` on a `PyFloat`. -/
def PyFloat.isFinite : PyFloat → Bool
  | .fin _ => true
  | _ => false

/-- Python `<=` on floats: every comparison involving `nan` is false. -/
def PyFloat.le : PyFloat → PyFloat → Bool
  | .nan, _ => false
  | _, .nan => false
  | .fin a, .fin b => a ≤ b
  | .ninf, _ => true
  | _, .inf => true
  | .inf, _ => false
  | .fin _, .ninf => false

/-- A Python object in a position where the code applies
`float(getattr(v, 'real', v))`: either the coercion succeeds and yields a
`PyFloat`, or it raises (`ValueError`/`TypeError`). -/
inductive PyNumLike
  | num (x : PyFloat)
  | bad
  deriving DecidableEq

/-- Whether `float(getattr(v, 'real', v))` succeeds on the value. -/
def PyNumLike.coercible : PyNumLike → Bool
  | .num _ => true
  | .bad => false

/-- Python `str.upper()` (restricted to ASCII case mapping, which is all the
GPS direction letters exercise). -/
def pyUpper (s : String) : String := String.mk (s.data.map Char.toUpper)

/-- Embedding of `dms_to_decimal` (`core/geo.py` lines 9-43; identical copy in
`procesar_exif_v2.2.py` lines 70-104).  The three DMS components are first
coerced to floats (coercion failure raises `ValueError`), then rejected when
non-finite; minutes/seconds outside `[0, 60)` only print a warning and do not
alter the computation.  The decimal value `d + m/60 + s/3600` is negated for
directions `S`/`W` (after upper-casing), returned as-is for `N`/`E`, and any
other direction raises `ValueError`. -/
def dms_to_decimal (degrees minutes seconds : PyNumLike) (direction : String) :
    Except String ℚ :=
  match degrees, minutes, seconds with
  | .num (.fin dq), .num (.fin mq), .num (.fin sq) =>
    let dd := dq + mq / 60 + sq / 3600
    let du := pyUpper direction
    if du = "S" ∨ du = "W" then .ok (-dd)
    else if du = "N" ∨ du = "E" then .ok dd
    else .error ("Direccion GPS desconocida: " ++ direction)
  | _, _, _ => .error "Componente(s) DMS no finito o no convertible"

/-- The condition under which `dms_to_decimal` prints its out-of-range
warning (minutes or seconds outside `[0, 60)`); it never causes a failure. -/
def dmsRangeWarning (mq sq : ℚ) : Bool :=
  ¬(0 ≤ mq ∧ mq < 60 ∧ 0 ≤ sq ∧ sq < 60)

/-- An argument of `convert_to_utm` as seen by its `isinstance` test: either a
numeric Python value (`int`/`float`) or a non-numeric object. -/
inductive PyVal
  | num (x : PyFloat)
  | nonNum
  deriving DecidableEq

/-- Outcome of the external `pyproj` transform for a given EPSG code and
`(longitude, latitude)` input: a pair of floats, or a raised exception
(`CRSError`, `ValueError` or anything else — all are caught alike). -/
inductive ProjOutcome
  | ok (easting northing : PyFloat)
  | err
  deriving DecidableEq

/-- The projection capability: EPSG code and `(x = longitude, y = latitude)`
to a projected pair.  Abstract parameter of the embedding. -/
abbrev Proj := ℤ → ℚ → ℚ → ProjOutcome

/-- The computation `zone = math.floor((longitude + 180) / 6) + 1` from `convert_to_utm`. -/
def utmZone (lonQ : ℚ) : ℤ := ⌊(lonQ + 180) / 6⌋ + 1

/-- The computation `hemisphere = 'N' if latitude >= 0 else 'S'` from `convert_to_utm`. -/
def utmHemisphere (latQ : ℚ) : Char := if 0 ≤ latQ then 'N' else 'S'

/-- The computation `epsg_code = (32600 if latitude >= 0 else 32700) + zone` from
`convert_to_utm`. -/
def utmEpsg (latQ lonQ : ℚ) : ℤ :=
  (if 0 ≤ latQ then 32600 else 32700) + utmZone lonQ

/-- The in-range test of `convert_to_utm`
(`-90 <= latitude <= 90 and -180 <= longitude <= 180`, Python float
comparisons, hence false on `nan`). -/
def utmRangeOk (latF lonF : PyFloat) : Bool :=
  PyFloat.le (.fin (-90)) latF ∧ PyFloat.le latF (.fin 90) ∧
    PyFloat.le (.fin (-180)) lonF ∧ PyFloat.le lonF (.fin 180)

/-- The rational value of a finite `PyFloat`.  The junk value `0` on the
non-finite constructors is never consulted: `convert_to_utm` reads it only
after `utmRangeOk` has passed, which rejects every non-finite float. -/
def PyFloat.toRat : PyFloat → ℚ
  | .fin q => q
  | _ => 0

/-- Embedding of `convert_to_utm` (`core/geo.py` lines 45-65; identical copy in
`procesar_exif_v2.2.py` lines 138-158).  Non-numeric arguments and
out-of-range coordinates return the all-`None` failure tuple (modelled as
`none`); otherwise the zone, hemisphere and EPSG code are computed and the
external transform invoked; a raised projection error or a non-finite
easting/northing also yields the failure tuple.  The function never lets an
exception escape. -/
def convert_to_utm (proj : Proj) (latitude longitude : PyVal) :
    Option (ℚ × ℚ × ℤ × Char) :=
  match latitude, longitude with
  | .num latF, .num lonF =>
    if utmRangeOk latF lonF then
      let latQ := latF.toRat
      let lonQ := lonF.toRat
      match proj (utmEpsg latQ lonQ) lonQ latQ with
      | .ok (.fin e) (.fin n) => some (e, n, utmZone lonQ, utmHemisphere latQ)
      | .ok _ _ => none
      | .err => none
    else none
  | _, _ => none

/-- A projection stub that always succeeds with finite output; used to
exhibit concrete behaviours of `convert_to_utm`. -/
def projTrivial : Proj := fun _ _ _ => .ok (.fin 0) (.fin 0)

/-- The early-rejection condition of `convert_to_utm`: a non-numeric argument
or a failed Python range comparison (the latter also rejects every
non-finite float, since comparisons with `nan` are false and infinities fall
outside the bounds). -/
def utmBadInput (latitude longitude : PyVal) : Bool :=
  match latitude, longitude with
  | .num latF, .num lonF => ¬ utmRangeOk latF lonF
  | _, _ => true

/-- A value stored in the decoded GPS dictionary (`exif_data["GPSInfo"]`), as
classified by the type tests of `get_coordinates`: Python `None`, a string, a
tuple (whose elements may or may not be float-coercible), a number, or any
other object (carrying only its truthiness). -/
inductive GpsVal
  | vNone
  | vStr (s : String)
  | vTup (xs : List PyNumLike)
  | vNum (x : PyFloat)
  | vOther (truthy : Bool)
  deriving DecidableEq

/-- Python truthiness of a `GpsVal` (`None`, `""`, `()`, and `0.0` are falsy;
`nan` and infinities are truthy). -/
def GpsVal.truthy : GpsVal → Bool
  | .vNone => false
  | .vStr s => s ≠ ""
  | .vTup xs => xs ≠ []
  | .vNum (.fin q) => q ≠ 0
  | .vNum _ => true
  | .vOther t => t

/-- The four GPS entries that `get_coordinates` reads from the GPS
dictionary (`gps.get` returns `vNone` when a key is absent). -/
structure GpsBlock where
  latDms : GpsVal
  latRef : GpsVal
  lonDms : GpsVal
  lonRef : GpsVal
  deriving DecidableEq

/-- Embedding of `get_coordinates` (`procesar_exif_v2.2.py` lines 106-136;
same logic in `procesar_exif_2.0.py` lines 312-379).  The argument models
`exif_data.get("GPSInfo")` (`none` also covers a falsy/absent `exif_data`).
Checks in source order: the four entries are truthy; both refs are strings;
both DMS values are 3-tuples; all six components are float-coercible; then
both axes run through `dms_to_decimal` (a raised `ValueError` is caught and
becomes `none`); finally the computed pair must lie in
`[-90, 90] × [-180, 180]`, otherwise a warning is printed and `none`
returned. -/
def get_coordinates (gpsInfo : Option GpsBlock) : Option (ℚ × ℚ) :=
  match gpsInfo with
  | none => none
  | some gps =>
    if ¬(gps.latDms.truthy ∧ gps.latRef.truthy ∧ gps.lonDms.truthy ∧
        gps.lonRef.truthy) then none
    else match gps.latRef, gps.lonRef with
      | .vStr latRef, .vStr lonRef =>
        match gps.latDms with
        | .vTup [la1, la2, la3] =>
          match gps.lonDms with
          | .vTup [lo1, lo2, lo3] =>
            if la1.coercible ∧ la2.coercible ∧ la3.coercible ∧
                lo1.coercible ∧ lo2.coercible ∧ lo3.coercible then
              match dms_to_decimal la1 la2 la3 latRef,
                  dms_to_decimal lo1 lo2 lo3 lonRef with
              | .ok latitude, .ok longitude =>
                if -90 ≤ latitude ∧ latitude ≤ 90 ∧ -180 ≤ longitude ∧
                    longitude ≤ 180 then some (latitude, longitude)
                else none
              | _, _ => none
            else none
          | _ => none
        | _ => none
      | _, _ => none

/-- A Python byte (an element of a `bytes` object). -/
abbrev Byte := Fin 256

/-- The characters Python's `str.strip()` removes and `\s` matches in text
patterns (the `str.isspace` set). -/
def pyIsSpace (c : Char) : Bool :=
  let n := c.toNat
  n = 9 ∨ n = 10 ∨ n = 11 ∨ n = 12 ∨ n = 13 ∨ (28 ≤ n ∧ n ≤ 31) ∨ n = 32 ∨
    n = 133 ∨ n = 160 ∨ n = 0x1680 ∨ (0x2000 ≤ n ∧ n ≤ 0x200A) ∨ n = 0x2028 ∨
    n = 0x2029 ∨ n = 0x202F ∨ n = 0x205F ∨ n = 0x3000

/-- Python `str.strip()` on a character list: drop whitespace from both ends. -/
def stripL (cs : List Char) : List Char :=
  ((cs.dropWhile pyIsSpace).reverse.dropWhile pyIsSpace).reverse

/-- Python `str.strip()`. -/
def pyStrip (s : String) : String := String.mk (stripL s.data)

/-- Strict UTF-8 decoding (`bytes.decode('utf-8', 'strict')`): `some` of the
decoded characters, or `none` when the byte sequence is ill-formed (invalid
leading byte, wrong continuation byte, overlong form, surrogate, or a code
point above `0x10FFFF` — exactly the sequences Python rejects). -/
def utf8Decode? : List Byte → Option (List Char)
  | [] => some []
  | b :: rest =>
    let n := b.val
    if n < 0x80 then
      (utf8Decode? rest).map (fun cs => Char.ofNat n :: cs)
    else if n < 0xC2 then none
    else if n < 0xE0 then
      match rest with
      | c1 :: rest2 =>
        if 0x80 ≤ c1.val ∧ c1.val < 0xC0 then
          (utf8Decode? rest2).map (fun cs =>
            Char.ofNat ((n - 0xC0) * 0x40 + (c1.val - 0x80)) :: cs)
        else none
      | [] => none
    else if n < 0xF0 then
      match rest with
      | c1 :: c2 :: rest2 =>
        if (if n = 0xE0 then 0xA0 else 0x80) ≤ c1.val ∧
            c1.val ≤ (if n = 0xED then 0x9F else 0xBF) ∧
            0x80 ≤ c2.val ∧ c2.val < 0xC0 then
          (utf8Decode? rest2).map (fun cs =>
            Char.ofNat ((n - 0xE0) * 0x1000 + (c1.val - 0x80) * 0x40 +
              (c2.val - 0x80)) :: cs)
        else none
      | _ => none
    else if n < 0xF5 then
      match rest with
      | c1 :: c2 :: c3 :: rest2 =>
        if (if n = 0xF0 then 0x90 else 0x80) ≤ c1.val ∧
            c1.val ≤ (if n = 0xF4 then 0x8F else 0xBF) ∧
            0x80 ≤ c2.val ∧ c2.val < 0xC0 ∧ 0x80 ≤ c3.val ∧ c3.val < 0xC0 then
          (utf8Decode? rest2).map (fun cs =>
            Char.ofNat ((n - 0xF0) * 0x40000 + (c1.val - 0x80) * 0x1000 +
              (c2.val - 0x80) * 0x40 + (c3.val - 0x80)) :: cs)
        else none
      | _ => none
    else none

/-- Lossy Latin-1 decoding `bytes.decode('latin-1', 'replace')`: total, since Latin-1 assigns every
byte value the code point of the same value (the `'replace'` handler is
never exercised). -/
def latin1Decode (bs : List Byte) : List Char :=
  bs.map (fun b => Char.ofNat b.val)

/-- Embedding of `_decode_exif_string` (`core/exif_reader.py` lines 15-23;
identical copy in `procesar_exif_v2.2.py` lines 39-47): strict UTF-8 first;
on `UnicodeDecodeError` fall back to Latin-1 with replacement (which never
fails, so the code's final `repr(value)` branch is unreachable); strip
surrounding whitespace from the result. -/
def _decode_exif_string (bs : List Byte) : String :=
  match utf8Decode? bs with
  | some cs => pyStrip (String.mk cs)
  | none => pyStrip (String.mk (latin1Decode bs))

/-- The text `_decode_exif_string` obtains before trimming: the strict UTF-8
decoding when it succeeds, the Latin-1 decoding otherwise. -/
def bestDecode (bs : List Byte) : List Char :=
  match utf8Decode? bs with
  | some cs => cs
  | none => latin1Decode bs

/-- Python `len` of a string (its character count). -/
def pyLen (s : String) : ℕ := s.data.length

/-- The test `decoded_value.startswith("b'")`: the first two characters are `b` and
an ASCII apostrophe. -/
def startsWithBQuote (s : String) : Bool :=
  match s.data with
  | c1 :: c2 :: _ => c1 = 'b' ∧ c2 = '\''
  | _ => false

/-- The placeholder `f"<Binary data length {len(value)}>"` stored for
implausibly long stringified-binary decodings. -/
def binaryPlaceholder (n : ℕ) : String :=
  "<Binary data length " ++ toString n ++ ">"

/-- Embedding of the passthrough-tag byte handling of `get_exif_data`
(`core/exif_reader.py` lines 93-96; identical copy in
`procesar_exif_v2.2.py` lines 240-243): decode the bytes with
`_decode_exif_string`; if the decoded text is longer than 100 characters and
starts with `b'`, store the placeholder carrying the original byte length,
otherwise store the decoded text. -/
def decodePassthroughBytes (bs : List Byte) : String :=
  let decoded := _decode_exif_string bs
  if 100 < pyLen decoded ∧ startsWithBQuote decoded then
    binaryPlaceholder bs.length
  else decoded

/-- A raw tag value as read from the EXIF table for the timestamp logic:
Python `None`, a string, or any other object (only its truthiness and
non-string-ness matter). -/
inductive RawTag
  | rNone
  | rStr (s : String)
  | rOther (truthy : Bool)
  deriving DecidableEq

/-- Python truthiness of a raw tag value. -/
def RawTag.truthy : RawTag → Bool
  | .rNone => false
  | .rStr s => s ≠ ""
  | .rOther t => t

/-- The cleanup `raw_date.replace('\x00', '')`: remove every NUL character. -/
def removeNul (s : String) : String :=
  String.mk (s.data.filter (fun c => c ≠ '\x00'))

/-- Maximal digit prefix of a character list, with the remainder. -/
def takeDigits : List Char → List Char × List Char
  | [] => ([], [])
  | c :: cs =>
    if c.isDigit then
      let (ds, r) := takeDigits cs
      (c :: ds, r)
    else ([], c :: cs)

/-- Numeric value of a digit list. -/
def digitsVal (ds : List Char) : ℕ :=
  ds.foldl (fun a c => a * 10 + (c.toNat - 48)) 0

/-- A 1- or 2-digit `strptime` field: one digit with value at least `lo`, or
two digits with value in `[max lo 1 * 0 + lo, hi2]`—i.e. `lo ≤ v ≤ hi2`
(covering the CPython patterns `1[0-2]|0[1-9]|[1-9]`, `3[01]|[12]\d|0[1-9]|[1-9]`,
`2[0-3]|[0-1]\d|\d`, `[0-5]\d|\d` and `6[0-1]|[0-5]\d|\d`). -/
def fieldOk (ds : List Char) (lo hi2 : ℕ) : Bool :=
  (ds.length = 1 ∧ lo ≤ digitsVal ds) ∨
    (ds.length = 2 ∧ lo ≤ digitsVal ds ∧ digitsVal ds ≤ hi2)

/-- Gregorian leap-year rule used by `datetime`. -/
def pyLeapYear (y : ℕ) : Bool := y % 4 = 0 ∧ (y % 100 ≠ 0 ∨ y % 400 = 0)

/-- Length of a month as validated by `datetime`. -/
def daysInMonth (y m : ℕ) : ℕ :=
  if m = 2 then (if pyLeapYear y then 29 else 28)
  else if m = 4 ∨ m = 6 ∨ m = 9 ∨ m = 11 then 30
  else 31

/-- The shape part of `datetime.strptime(s, '%Y:%m:%d %H:%M:%S')`: digit
groups separated by `:`, one or more whitespace characters between the date
and time parts, nothing left over.  Returns the six digit groups; the
per-field constraints are checked by `strptimeExifOk`. -/
def strptimeFields (cs : List Char) : Option (List Char × List Char ×
    List Char × List Char × List Char × List Char) :=
  let (ys, r1) := takeDigits cs
  match r1 with
  | ':' :: r2 =>
    let (ms, r3) := takeDigits r2
    match r3 with
    | ':' :: r4 =>
      let (ds, r5) := takeDigits r4
      match r5 with
      | w :: r6 =>
        if pyIsSpace w then
          let (hs, r8) := takeDigits (r6.dropWhile pyIsSpace)
          match r8 with
          | ':' :: r9 =>
            let (mins, r10) := takeDigits r9
            match r10 with
            | ':' :: r11 =>
              let (ss, r12) := takeDigits r11
              if r12 = [] then some (ys, ms, ds, hs, mins, ss) else none
            | _ => none
          | _ => none
        else none
      | [] => none
    | _ => none
  | _ => none

/-- The validity checks applied to the six parsed digit groups (regex field
constraints, then the `datetime` constructor's own bounds). -/
def strptimeExifOk (s : String) : Bool :=
  match strptimeFields s.data with
  | some (ys, ms, ds, hs, mins, ss) =>
    ys.length = 4 ∧ fieldOk ms 1 12 ∧ fieldOk ds 1 31 ∧ fieldOk hs 0 23 ∧
      fieldOk mins 0 59 ∧ fieldOk ss 0 61 ∧ 1 ≤ digitsVal ys ∧
      digitsVal ds ≤ daysInMonth (digitsVal ys) (digitsVal ms) ∧
      digitsVal ss ≤ 59
  | none => false

/-- Embedding of the timestamp extraction of `get_exif_data`
(`core/exif_reader.py` lines 68-74; identical copy in
`procesar_exif_v2.2.py` lines 215-221): take the original-capture tag if
truthy, else the modification tag (`or`); if the value is not a string,
store `None`; otherwise remove NULs, strip whitespace, and keep the cleaned
string only when `datetime.strptime` accepts it, storing `None` (after a
warning) otherwise. -/
def get_exif_data_timestamp (rawOriginal rawDateTime : RawTag) :
    Option String :=
  let raw := if rawOriginal.truthy then rawOriginal else rawDateTime
  match raw with
  | .rStr s =>
    let clean := pyStrip (removeNul s)
    if strptimeExifOk clean then some clean else none
  | _ => none

/-- Modelled from the spec: the claimed exact `YYYY:MM:DD HH:MM:SS` shape —
four-digit year and two-digit zero-padded month, day, hour, minute and
second, with single separators.  Defined only to compare the claim with the
code's actual validation. -/
def specTimestampExact (s : String) : Bool :=
  match s.data with
  | [y1, y2, y3, y4, c1, m1, m2, c2, d1, d2, sp, h1, h2, c3, n1, n2, c4,
      s1, s2] =>
    y1.isDigit ∧ y2.isDigit ∧ y3.isDigit ∧ y4.isDigit ∧ c1 = ':' ∧
      m1.isDigit ∧ m2.isDigit ∧ c2 = ':' ∧ d1.isDigit ∧ d2.isDigit ∧
      sp = ' ' ∧ h1.isDigit ∧ h2.isDigit ∧ c3 = ':' ∧ n1.isDigit ∧
      n2.isDigit ∧ c4 = ':' ∧ s1.isDigit ∧ s2.isDigit
  | _ => false

/-- The base name `os.path.splitext(name)[0]` for a plain file name (no directory
separators): cut at the last dot, unless every character before that dot is
itself a dot (CPython keeps leading-dot names whole). -/
def splitextBase (name : String) : String :=
  let cs := name.data
  match cs.reverse.findIdx? (· = '.') with
  | none => name
  | some i =>
    let dotIndex := cs.length - 1 - i
    if (cs.take dotIndex).any (· ≠ '.') then String.mk (cs.take dotIndex)
    else name

/-- The fields of the decoded metadata dictionary that the per-file loop of
`process_folder` consumes: the validated timestamp, the description, the
custom display name and the GPS block. -/
structure FileMeta where
  photoDate : Option String
  description : Option String
  customName : Option String
  gps : Option GpsBlock
  deriving DecidableEq

/-- The outcome of `get_exif_data` for one file, as the loop distinguishes
it: `None` (read failure), an empty falsy dictionary, or a populated
dictionary together with the orientation value. -/
inductive ExifResult
  | readError
  | emptyMeta
  | meta (m : FileMeta) (orientation : Option ℤ)
  deriving DecidableEq

/-- One directory entry of the scan (already filtered to image extensions
and sorted by name), with what reading its EXIF yields. -/
structure FileEntry where
  filename : String
  filepath : String
  exif : ExifResult
  deriving DecidableEq

/-- The `photo_info` record appended for a fully successful file
(`process_folder`, lines 651-655). -/
structure PhotoRec where
  filename : String
  nome : String
  customName : Option String
  photoDate : Option String
  description : Option String
  latitude : ℚ
  longitude : ℚ
  utmEasting : ℚ
  utmNorthing : ℚ
  utmZone : ℤ
  utmHemisphere : Char
  filepath : String
  orientation : Option ℤ
  deriving DecidableEq

/-- The mutable counters and result list of `process_folder`
(line 622-623). -/
structure ScanState where
  processed : ℕ
  coordsOk : ℕ
  coordsNok : ℕ
  errorsRead : ℕ
  utmErr : ℕ
  dateOk : ℕ
  dateNok : ℕ
  descFound : ℕ
  customFound : ℕ
  photos : List PhotoRec
  deriving DecidableEq

/-- Python truthiness of an optional string (`None` and `""` falsy). -/
def optStrTruthy : Option String → Bool
  | some s => s ≠ ""
  | none => false

/-- One iteration of the per-file loop of `process_folder`
(`procesar_exif_v2.2.py` lines 631-657): `processed` always increments; a
read failure counts as read-error/no-coordinates/no-date; empty metadata as
no-coordinates/no-date; otherwise the date/description/custom-name counters
update, `get_coordinates` runs, and on success `convert_to_utm` decides
between appending a `PhotoRec` (counting `coords_ok`) and counting a UTM
failure as no-coordinates. -/
def processEntry (proj : Proj) (st : ScanState) (f : FileEntry) : ScanState :=
  let st := { st with processed := st.processed + 1 }
  match f.exif with
  | .readError =>
    { st with
        errorsRead := st.errorsRead + 1
        coordsNok := st.coordsNok + 1
        dateNok := st.dateNok + 1 }
  | .emptyMeta =>
    { st with coordsNok := st.coordsNok + 1, dateNok := st.dateNok + 1 }
  | .meta m orientation =>
    let st := if optStrTruthy m.photoDate then
        { st with dateOk := st.dateOk + 1 }
      else { st with dateNok := st.dateNok + 1 }
    let st := if optStrTruthy m.description then
        { st with descFound := st.descFound + 1 }
      else st
    let st := if optStrTruthy m.customName then
        { st with customFound := st.customFound + 1 }
      else st
    match get_coordinates m.gps with
    | some (latitude, longitude) =>
      match convert_to_utm proj (.num (.fin latitude))
          (.num (.fin longitude)) with
      | some (easting, northing, zone, hemisphere) =>
        { st with
            photos := st.photos ++ [{
              filename := f.filename, nome := splitextBase f.filename,
              customName := m.customName, photoDate := m.photoDate,
              description := m.description, latitude := latitude,
              longitude := longitude, utmEasting := easting,
              utmNorthing := northing, utmZone := zone,
              utmHemisphere := hemisphere, filepath := f.filepath,
              orientation := orientation }],
            coordsOk := st.coordsOk + 1 }
      | none =>
        { st with utmErr := st.utmErr + 1, coordsNok := st.coordsNok + 1 }
    | none => { st with coordsNok := st.coordsNok + 1 }

/-- The zeroed initial scan state (`0,0,...` and the empty list). -/
def scanInit : ScanState := ⟨0, 0, 0, 0, 0, 0, 0, 0, 0, []⟩

/-- The per-file loop of `process_folder` over the filtered, name-sorted
directory entries. -/
def process_folder_scan (proj : Proj) (entries : List FileEntry) : ScanState :=
  entries.foldl (processEntry proj) scanInit

/-- The terminal outcome of one file in the scan. -/
inductive FileOutcome
  | readErr
  | emptyMeta
  | noCoords
  | success
  deriving DecidableEq

/-- Which terminal outcome a file reaches (UTM failure falls under
no-coordinates, as the loop counts it). -/
def entryOutcome (proj : Proj) (f : FileEntry) : FileOutcome :=
  match f.exif with
  | .readError => .readErr
  | .emptyMeta => .emptyMeta
  | .meta m _ =>
    match get_coordinates m.gps with
    | some (latitude, longitude) =>
      match convert_to_utm proj (.num (.fin latitude))
          (.num (.fin longitude)) with
      | some _ => .success
      | none => .noCoords
    | none => .noCoords

/-- Number of scanned files reaching a given outcome. -/
def countOutcome (proj : Proj) (o : FileOutcome)
    (entries : List FileEntry) : ℕ :=
  entries.countP (fun f => entryOutcome proj f = o)

/-- The sort key of `photo_data_list.sort` (`procesar_exif_v2.2.py`
line 691): `(item.get("photo_date") or "9999", item["filename"])`. -/
def photoSortKey (r : PhotoRec) : String × String :=
  ((match r.photoDate with
    | some s => if s = "" then "9999" else s
    | none => "9999"), r.filename)

/-- Lexicographic comparison of sort keys (Python tuple `<=`). -/
def keyLe (r1 r2 : PhotoRec) : Prop :=
  (photoSortKey r1).1 < (photoSortKey r2).1 ∨
    ((photoSortKey r1).1 = (photoSortKey r2).1 ∧
      (photoSortKey r1).2 ≤ (photoSortKey r2).2)

instance : DecidableRel keyLe := fun a b => by
  unfold keyLe
  infer_instance

instance : IsTotal PhotoRec keyLe where
  total a b := by
    unfold keyLe
    rcases lt_trichotomy (photoSortKey a).1 (photoSortKey b).1 with h | h | h
    · exact Or.inl (Or.inl h)
    · rcases le_total (photoSortKey a).2 (photoSortKey b).2 with h2 | h2
      · exact Or.inl (Or.inr ⟨h, h2⟩)
      · exact Or.inr (Or.inr ⟨h.symm, h2⟩)
    · exact Or.inr (Or.inl h)

instance : IsTrans PhotoRec keyLe where
  trans a b c hab hbc := by
    unfold keyLe at *
    rcases hab with h1 | ⟨h1, h1'⟩ <;> rcases hbc with h2 | ⟨h2, h2'⟩
    · exact Or.inl (h1.trans h2)
    · exact Or.inl (h2 ▸ h1)
    · exact Or.inl (h1 ▸ h2)
    · exact Or.inr ⟨h1.trans h2, h1'.trans h2'⟩

/-- The in-place stable sort of the result list by
`(photo_date or "9999", filename)` (Python's sort is stable, as is
insertion sort). -/
def sortPhotos (l : List PhotoRec) : List PhotoRec := l.insertionSort keyLe

/-- C1: For every call of `dms_to_decimal` whose degrees, minutes and
seconds are coercible to finite floats: a direction upper-casing to `N` or
`E` yields `d + m/60 + s/3600`; one upper-casing to `S` or `W` yields the
negation; any other direction raises `ValueError`.  The statement quantifies
over all finite minutes/seconds, including values outside `[0, 60)` (which
only produce a warning), so the same formula applies to them. -/
theorem dms_to_decimal_spec (dq mq sq : ℚ) (direction : String) :
    (pyUpper direction = "N" ∨ pyUpper direction = "E" →
      dms_to_decimal (.num (.fin dq)) (.num (.fin mq)) (.num (.fin sq))
        direction = .ok (dq + mq / 60 + sq / 3600)) ∧
    (pyUpper direction = "S" ∨ pyUpper direction = "W" →
      dms_to_decimal (.num (.fin dq)) (.num (.fin mq)) (.num (.fin sq))
        direction = .ok (-(dq + mq / 60 + sq / 3600))) ∧
    (pyUpper direction ≠ "N" → pyUpper direction ≠ "E" →
      pyUpper direction ≠ "S" → pyUpper direction ≠ "W" →
      ∃ msg, dms_to_decimal (.num (.fin dq)) (.num (.fin mq))
        (.num (.fin sq)) direction = .error msg) := by
  refine ⟨?_, ?_, ?_⟩
  · rintro (h | h) <;>
      simp [dms_to_decimal, h]
  · rintro (h | h) <;>
      simp [dms_to_decimal, h]
  · intro h1 h2 h3 h4
    refine ⟨"Direccion GPS desconocida: " ++ direction, ?_⟩
    simp [dms_to_decimal, h1, h2, h3, h4]

/-- Witness for C1 at concrete inputs: `(10, 30, 0, 'n')` gives `10.5`,
`(75, 45, 0, 'W')` gives `-75.75`, out-of-range seconds `(10, 0, 90, 'N')`
still gives the formula value, and direction `'X'` fails. -/
theorem dms_to_decimal_spec_witness :
    dms_to_decimal (.num (.fin 10)) (.num (.fin 30)) (.num (.fin 0)) "n" =
      .ok (10 + 30 / 60 + 0 / 3600) ∧
    dms_to_decimal (.num (.fin 75)) (.num (.fin 45)) (.num (.fin 0)) "W" =
      .ok (-(75 + 45 / 60 + 0 / 3600)) ∧
    dms_to_decimal (.num (.fin 10)) (.num (.fin 0)) (.num (.fin 90)) "N" =
      .ok (10 + 0 / 60 + 90 / 3600) ∧
    (∃ msg, dms_to_decimal (.num (.fin 1)) (.num (.fin 2)) (.num (.fin 3))
      "X" = .error msg) :=
  ⟨(dms_to_decimal_spec 10 30 0 "n").1 (Or.inl (by decide)),
   (dms_to_decimal_spec 75 45 0 "W").2.1 (Or.inr (by decide)),
   (dms_to_decimal_spec 10 0 90 "N").1 (Or.inl (by decide)),
   (dms_to_decimal_spec 1 2 3 "X").2.2 (by decide) (by decide) (by decide)
     (by decide)⟩

/-- C2 counterexample: At latitude `0`, longitude `180` (both within the
claimed input ranges) with a projection that succeeds, `convert_to_utm`
returns a non-failure result whose zone component is `61`, outside the
claimed `[1, 60]` range. -/
theorem convert_to_utm_zone61_cex :
    convert_to_utm projTrivial (.num (.fin 0)) (.num (.fin 180)) =
      some (0, 0, 61, 'N') ∧ ¬((61 : ℤ) ≤ 60) := by
  constructor
  · have h : utmRangeOk (.fin 0) (.fin 180) = true := by decide
    rw [convert_to_utm, h]
    simp only [if_true, projTrivial, PyFloat.toRat]
    norm_num [utmZone, utmHemisphere]
  · decide

/-- C2 amended: For latitude in `[-90, 90]` and longitude in
`[-180, 180]`, whenever `convert_to_utm` returns a non-failure result its
zone equals `⌊(longitude + 180)/6⌋ + 1` and lies in `[1, 61]` — with `61`
possible only at longitude exactly `180`; for longitude `< 180` the zone is
in `[1, 60]` — and its hemisphere is `'N'` if the latitude is nonnegative and
`'S'` otherwise. -/
theorem convert_to_utm_zone_hemisphere (proj : Proj) (latQ lonQ e n : ℚ)
    (z : ℤ) (h : Char)
    (hlat : -90 ≤ latQ ∧ latQ ≤ 90) (hlon : -180 ≤ lonQ ∧ lonQ ≤ 180)
    (hres : convert_to_utm proj (.num (.fin latQ)) (.num (.fin lonQ)) =
      some (e, n, z, h)) :
    z = ⌊(lonQ + 180) / 6⌋ + 1 ∧ 1 ≤ z ∧ z ≤ 61 ∧ (lonQ < 180 → z ≤ 60) ∧
      h = (if 0 ≤ latQ then 'N' else 'S') := by
  have hrange : utmRangeOk (.fin latQ) (.fin lonQ) = true := by
    simp [utmRangeOk, PyFloat.le]
    exact ⟨hlat.1, hlat.2, hlon.1, hlon.2⟩
  rw [convert_to_utm, hrange] at hres
  simp only [if_true, PyFloat.toRat] at hres
  have hz : z = utmZone lonQ ∧ h = utmHemisphere latQ := by
    rcases hproj : proj (utmEpsg latQ lonQ) lonQ latQ with ⟨ef, nf⟩ | _
    · rw [hproj] at hres
      rcases ef with eq | _ | _ | _ <;> rcases nf with nq | _ | _ | _ <;>
        simp_all
    · rw [hproj] at hres; simp at hres
  have hfloor0 : (0 : ℤ) ≤ ⌊(lonQ + 180) / 6⌋ := by
    apply Int.le_floor.2
    push_cast
    linarith [hlon.1]
  have hfloor60 : ⌊(lonQ + 180) / 6⌋ ≤ 60 := by
    have : ⌊(lonQ + 180) / 6⌋ ≤ ⌊(60 : ℚ)⌋ := by
      apply Int.floor_le_floor
      linarith [hlon.2]
    simpa using this
  refine ⟨hz.1, by simp [utmZone] at hz ⊢; omega,
    by simp [utmZone] at hz ⊢; omega, ?_, by simpa [utmHemisphere] using hz.2⟩
  intro hlt
  have : ⌊(lonQ + 180) / 6⌋ < 60 := by
    apply Int.floor_lt.2
    push_cast
    linarith
  simp [utmZone] at hz ⊢
  omega

/-- Witness for C2 (amended) at latitude `40`, longitude `-74` (New York's
UTM zone): zone `18`, hemisphere `'N'`. -/
theorem convert_to_utm_zone_hemisphere_witness :
    (18 : ℤ) = ⌊((-74 : ℚ) + 180) / 6⌋ + 1 ∧ (1 : ℤ) ≤ 18 ∧
      (18 : ℤ) ≤ 61 ∧ ((-74 : ℚ) < 180 → (18 : ℤ) ≤ 60) ∧
      'N' = (if (0 : ℚ) ≤ 40 then 'N' else 'S') := by
  refine convert_to_utm_zone_hemisphere projTrivial 40 (-74) 0 0 18 'N'
    (by norm_num) (by norm_num) ?_
  have h : utmRangeOk (.fin 40) (.fin (-74)) = true := by decide
  rw [convert_to_utm, h]
  simp only [if_true, projTrivial, PyFloat.toRat]
  norm_num [utmZone, utmHemisphere]

/-- C3: `convert_to_utm` is total (the embedding is a Lean function, so
no exception escapes) and returns the all-`None` failure tuple (`none`) on
every non-numeric or out-of-range input — e.g. latitude `95.0` or longitude
`185.0` — as well as whenever the external projection raises or produces a
non-finite easting or northing. -/
theorem convert_to_utm_failure (proj : Proj) (latitude longitude : PyVal) :
    (utmBadInput latitude longitude = true →
      convert_to_utm proj latitude longitude = none) ∧
    (∀ latQ lonQ, latitude = .num (.fin latQ) → longitude = .num (.fin lonQ) →
      (proj (utmEpsg latQ lonQ) lonQ latQ = .err ∨
        ∀ ef nf, proj (utmEpsg latQ lonQ) lonQ latQ = .ok ef nf →
          ef.isFinite = false ∨ nf.isFinite = false) →
      convert_to_utm proj latitude longitude = none) := by
  constructor
  · intro hbad
    rcases latitude with latF | _ <;> rcases longitude with lonF | _
    · simp only [utmBadInput, decide_eq_true_eq] at hbad
      rw [convert_to_utm]
      exact if_neg hbad
    · rfl
    · rfl
    · rfl
  · rintro latQ lonQ rfl rfl hfail
    by_cases hrange : utmRangeOk (.fin latQ) (.fin lonQ) = true
    · rw [convert_to_utm, hrange]
      simp only [if_true, PyFloat.toRat]
      rcases hproj : proj (utmEpsg latQ lonQ) lonQ latQ with ⟨ef, nf⟩ | _
      · rcases hfail with hfail | hfail
        · rw [hproj] at hfail; cases hfail
        · have := hfail ef nf hproj
          rcases ef with eq | _ | _ | _ <;> rcases nf with nq | _ | _ | _ <;>
            simp_all [PyFloat.isFinite]
      · rfl
    · rw [convert_to_utm]
      simp [hrange]

/-- Witness for C3 at latitude `95.0` (out of range) and at a projection
that raises on New York's coordinates: both return the failure tuple. -/
theorem convert_to_utm_failure_witness :
    convert_to_utm projTrivial (.num (.fin 95)) (.num (.fin 0)) = none ∧
    convert_to_utm (fun _ _ _ => .err) (.num (.fin 40)) (.num (.fin (-74))) =
      none :=
  ⟨(convert_to_utm_failure projTrivial (.num (.fin 95)) (.num (.fin 0))).1
     (by decide),
   (convert_to_utm_failure (fun _ _ _ => .err) (.num (.fin 40))
     (.num (.fin (-74)))).2 40 (-74) rfl rfl (Or.inl rfl)⟩

/-- C4: Whenever `get_coordinates` returns a coordinate pair rather than
`None`, the pair lies in `[-90, 90] × [-180, 180]`: a computed pair outside
these bounds is replaced by a warning and `None`. -/
theorem get_coordinates_in_range (gpsInfo : Option GpsBlock) (lat lon : ℚ)
    (h : get_coordinates gpsInfo = some (lat, lon)) :
    -90 ≤ lat ∧ lat ≤ 90 ∧ -180 ≤ lon ∧ lon ≤ 180 := by
  rcases gpsInfo with _ | gps
  · simp [get_coordinates] at h
  · rw [get_coordinates] at h
    repeat' split at h
    all_goals simp_all

/-- Witness for C4: a GPS block with latitude `(10, 30, 0) N` and longitude
`(75, 45, 0) W` yields the in-range pair `(10.5, -75.75)`. -/
theorem get_coordinates_in_range_witness :
    -90 ≤ (21 / 2 : ℚ) ∧ (21 / 2 : ℚ) ≤ 90 ∧ -180 ≤ (-303 / 4 : ℚ) ∧
      (-303 / 4 : ℚ) ≤ 180 := by
  refine get_coordinates_in_range
    (some ⟨.vTup [.num (.fin 10), .num (.fin 30), .num (.fin 0)], .vStr "N",
      .vTup [.num (.fin 75), .num (.fin 45), .num (.fin 0)], .vStr "W"⟩)
    (21 / 2) (-303 / 4) ?_
  have hlat : dms_to_decimal (.num (.fin 10)) (.num (.fin 30)) (.num (.fin 0))
      "N" = .ok (21 / 2) := by
    rw [dms_to_decimal]
    simp +decide [show pyUpper "N" = "N" from by decide]
    norm_num
  have hlon : dms_to_decimal (.num (.fin 75)) (.num (.fin 45)) (.num (.fin 0))
      "W" = .ok (-303 / 4) := by
    rw [dms_to_decimal]
    simp +decide [show pyUpper "W" = "W" from by decide]
    norm_num
  rw [get_coordinates]
  simp +decide [GpsVal.truthy, PyNumLike.coercible, hlat, hlon]
  norm_num

/-- A stripped character list is empty exactly when every character of the
original list is whitespace. -/
theorem stripL_eq_nil_iff (cs : List Char) :
    stripL cs = [] ↔ ∀ c ∈ cs, pyIsSpace c = true := by
  rw [stripL, List.reverse_eq_nil_iff, List.dropWhile_eq_nil_iff]
  constructor
  · intro h c hc
    rw [← List.takeWhile_append_dropWhile (p := pyIsSpace) (l := cs)] at hc
    rcases List.mem_append.1 hc with hmem | hmem
    · exact List.mem_takeWhile_imp hmem
    · exact h c (List.mem_reverse.2 hmem)
  · intro h c hc
    exact h c ((List.dropWhile_sublist pyIsSpace).subset
      (List.mem_reverse.1 hc))

/-- C8: For every byte sequence, `_decode_exif_string` terminates with a
string (it is a total function: strict UTF-8 first, Latin-1 with replacement
— which accepts every byte — on failure, then whitespace trimming; the
`repr` fallback is unreachable), and its result is empty only when the
decoded content consists entirely of whitespace, i.e. the input was empty
after trimming. -/
theorem decode_exif_string_spec (bs : List Byte) :
    _decode_exif_string bs = pyStrip (String.mk (bestDecode bs)) ∧
    (_decode_exif_string bs = "" ↔ ∀ c ∈ bestDecode bs, pyIsSpace c = true) := by
  have heq : _decode_exif_string bs = pyStrip (String.mk (bestDecode bs)) := by
    rw [_decode_exif_string, bestDecode]
    rcases hu : utf8Decode? bs with _ | cs <;> simp
  refine ⟨heq, ?_⟩
  rw [heq, pyStrip]
  constructor
  · intro h
    have hdata : stripL (String.mk (bestDecode bs)).data = [] :=
      congrArg String.data h
    simpa using (stripL_eq_nil_iff _).1 (by simpa using hdata)
  · intro h
    have hdata : stripL (bestDecode bs) = [] := (stripL_eq_nil_iff _).2 h
    show String.mk (stripL (String.mk (bestDecode bs)).data) = ""
    simpa using congrArg String.mk hdata

/-- C10: For a passthrough tag with a byte-sequence value, the stored
value is `<Binary data length N>` (with `N` the original byte count) exactly
when the decoded text has more than 100 characters and begins with `b'`; in
every other case the decoded text itself is stored. -/
theorem decodePassthroughBytes_spec (bs : List Byte) :
    (100 < pyLen (_decode_exif_string bs) ∧
        startsWithBQuote (_decode_exif_string bs) = true →
      decodePassthroughBytes bs = binaryPlaceholder bs.length) ∧
    (¬(100 < pyLen (_decode_exif_string bs) ∧
        startsWithBQuote (_decode_exif_string bs) = true) →
      decodePassthroughBytes bs = _decode_exif_string bs) := by
  constructor <;> intro h
  · simp only [decodePassthroughBytes]
    rw [if_pos h]
  · simp only [decodePassthroughBytes]
    rw [if_neg h]

set_option maxRecDepth 4000 in
/-- Witness for C10: the 102-byte sequence `b'` followed by one hundred `x`
bytes decodes to a 102-character text starting with `b'`, so the placeholder
with the byte length 102 is stored; the 2-byte sequence `hi` is stored as
the decoded text `hi`. -/
theorem decodePassthroughBytes_spec_witness :
    decodePassthroughBytes
        ((98 : Fin 256) :: (39 : Fin 256) :: List.replicate 100 (120 : Fin 256)) =
      binaryPlaceholder 102 ∧
    decodePassthroughBytes [(104 : Fin 256), (105 : Fin 256)] = "hi" :=
  ⟨(decodePassthroughBytes_spec
      ((98 : Fin 256) :: (39 : Fin 256) :: List.replicate 100 (120 : Fin 256))).1
      (by decide),
   (decodePassthroughBytes_spec [(104 : Fin 256), (105 : Fin 256)]).2
      (by decide)⟩

/-- The result of stripping keeps only characters of the original list. -/
theorem stripL_sublist (cs : List Char) : List.Sublist (stripL cs) cs := by
  have h1 : List.Sublist (cs.dropWhile pyIsSpace) cs := List.dropWhile_sublist _
  have h2 : List.Sublist ((cs.dropWhile pyIsSpace).reverse.dropWhile pyIsSpace)
      (cs.dropWhile pyIsSpace).reverse := List.dropWhile_sublist _
  have h3 := h2.reverse
  rw [List.reverse_reverse] at h3
  rw [stripL]
  exact h3.trans h1

/-- C5 counterexample: The raw value `"2024:1:2 3:4:5"` passes the
code's `strptime` validation and is stored verbatim, yet it does not match
the claimed exact zero-padded `YYYY:MM:DD HH:MM:SS` pattern. -/
theorem timestamp_exact_pattern_cex :
    get_exif_data_timestamp (.rStr "2024:1:2 3:4:5") .rNone =
      some "2024:1:2 3:4:5" ∧
    specTimestampExact "2024:1:2 3:4:5" = false := by
  constructor
  · decide
  · decide

/-- C5 amended: Every stored capture timestamp is either `None` or a
string that contains no NUL, comes from the preferred raw tag (original
capture if truthy, else modification) by NUL-removal and whitespace
trimming, and passes the validation the code actually performs —
`datetime.strptime` with format `%Y:%m:%d %H:%M:%S`, which demands a
four-digit year but accepts unpadded 1- or 2-digit month, day, hour, minute
and second and any run of whitespace between date and time, plus calendar
validity; values failing this are stored as `None` without failing the
extraction. -/
theorem get_exif_data_timestamp_valid (a b : RawTag) (s : String)
    (h : get_exif_data_timestamp a b = some s) :
    strptimeExifOk s = true ∧ '\x00' ∉ s.data ∧
      ∃ raw, ((a.truthy = true ∧ a = .rStr raw) ∨
          (a.truthy = false ∧ b = .rStr raw)) ∧
        s = pyStrip (removeNul raw) := by
  have hnul : ∀ t : String, '\x00' ∉ (pyStrip (removeNul t)).data := by
    intro t hmem
    have hmem2 : '\x00' ∈ (removeNul t).data := (stripL_sublist _).subset hmem
    rw [removeNul] at hmem2
    simp at hmem2
  simp only [get_exif_data_timestamp] at h
  rcases hsel : (if RawTag.truthy a = true then a else b) with _ | str | t
  · rw [hsel] at h
    simp at h
  · rw [hsel] at h
    have h2 : (if strptimeExifOk (pyStrip (removeNul str)) = true
        then some (pyStrip (removeNul str)) else none) = some s := h
    split at h2
    next hok =>
      injection h2 with h3
      subst h3
      refine ⟨hok, hnul str, str, ?_, rfl⟩
      by_cases ht : a.truthy = true
      · exact Or.inl ⟨ht, by rwa [if_pos ht] at hsel⟩
      · exact Or.inr ⟨by simpa using ht, by rwa [if_neg ht] at hsel⟩
    next => simp at h2
  · rw [hsel] at h
    simp at h

/-- Witness for C5 (amended): the raw value `" 2024:01:02 03:04:05\x00"`
(with surrounding whitespace and a trailing NUL) is cleaned to
`"2024:01:02 03:04:05"` and stored. -/
theorem get_exif_data_timestamp_valid_witness :
    strptimeExifOk "2024:01:02 03:04:05" = true ∧
      '\x00' ∉ "2024:01:02 03:04:05".data ∧
      ∃ raw, ((RawTag.truthy (.rStr " 2024:01:02 03:04:05\x00") = true ∧
            RawTag.rStr " 2024:01:02 03:04:05\x00" = .rStr raw) ∨
          (RawTag.truthy (.rStr " 2024:01:02 03:04:05\x00") = false ∧
            RawTag.rNone = .rStr raw)) ∧
        "2024:01:02 03:04:05" = pyStrip (removeNul raw) :=
  get_exif_data_timestamp_valid (.rStr " 2024:01:02 03:04:05\x00") .rNone
    "2024:01:02 03:04:05" (by decide)

/-- Per-entry effect of one loop iteration on the counters the aggregate
invariants mention. -/
theorem processEntry_fields (proj : Proj) (st : ScanState) (f : FileEntry) :
    (processEntry proj st f).processed = st.processed + 1 ∧
    (processEntry proj st f).errorsRead = st.errorsRead +
      (if entryOutcome proj f = .readErr then 1 else 0) ∧
    (processEntry proj st f).coordsOk = st.coordsOk +
      (if entryOutcome proj f = .success then 1 else 0) ∧
    (processEntry proj st f).photos.length = st.photos.length +
      (if entryOutcome proj f = .success then 1 else 0) := by
  rcases f with ⟨fn, fp, ex⟩
  rcases ex with _ | _ | ⟨m, orient⟩
  · simp [processEntry, entryOutcome]
  · simp [processEntry, entryOutcome]
  · rcases hc : get_coordinates m.gps with _ | ⟨lat, lon⟩
    · simp [processEntry, entryOutcome, hc]
      split_ifs <;> simp
    · rcases hu : convert_to_utm proj (.num (.fin lat)) (.num (.fin lon))
        with _ | ⟨e, n, z, hh⟩
      · simp [processEntry, entryOutcome, hc, hu]
        split_ifs <;> simp
      · simp [processEntry, entryOutcome, hc, hu]
        split_ifs <;> simp

/-- Folding the loop over any suffix adds the number of entries to
`processed`. -/
theorem scan_foldl_processed (proj : Proj) (es : List FileEntry) :
    ∀ st : ScanState,
      (es.foldl (processEntry proj) st).processed = st.processed + es.length := by
  induction es with
  | nil => intro st; simp
  | cons f es ih =>
    intro st
    rw [List.foldl_cons, ih, (processEntry_fields proj st f).1]
    simp
    omega

/-- Folding the loop adds, to `errors_read`, `coords_ok` and the result
length, the counts of read-error and success outcomes respectively. -/
theorem scan_foldl_counts (proj : Proj) (es : List FileEntry) :
    ∀ st : ScanState,
      (es.foldl (processEntry proj) st).errorsRead =
        st.errorsRead + countOutcome proj .readErr es ∧
      (es.foldl (processEntry proj) st).coordsOk =
        st.coordsOk + countOutcome proj .success es ∧
      (es.foldl (processEntry proj) st).photos.length =
        st.photos.length + countOutcome proj .success es := by
  induction es with
  | nil => intro st; simp [countOutcome]
  | cons f es ih =>
    intro st
    obtain ⟨h1, h2, h3, h4⟩ := processEntry_fields proj st f
    obtain ⟨i1, i2, i3⟩ := ih (processEntry proj st f)
    simp only [List.foldl_cons, countOutcome, List.countP_cons] at *
    rw [i1, i2, i3, h2, h3, h4]
    rcases ho : entryOutcome proj f <;> simp [ho] <;> omega

/-- Every scanned file reaches exactly one of the four outcomes, so the
outcome counts partition the file count. -/
theorem countOutcome_partition (proj : Proj) (entries : List FileEntry) :
    countOutcome proj .readErr entries + countOutcome proj .emptyMeta entries +
      countOutcome proj .noCoords entries +
      countOutcome proj .success entries = entries.length := by
  induction entries with
  | nil => simp [countOutcome]
  | cons f es ih =>
    simp only [countOutcome, List.countP_cons, List.length_cons] at *
    rcases ho : entryOutcome proj f <;> simp [ho] <;> omega

/-- C7: At the end of a completed folder scan, the number of files found
equals read-errors plus empty-metadata files plus the files that yielded
either no coordinates or a `PhotoRec` (each file counted in exactly one
outcome, per `countOutcome_partition`), and the success counter equals the
length of the result sequence. -/
theorem process_folder_scan_aggregate (proj : Proj)
    (entries : List FileEntry) :
    entries.length = (process_folder_scan proj entries).errorsRead +
      countOutcome proj .emptyMeta entries +
      (countOutcome proj .noCoords entries +
        countOutcome proj .success entries) ∧
    (process_folder_scan proj entries).coordsOk =
      (process_folder_scan proj entries).photos.length := by
  obtain ⟨h1, h2, h3⟩ := scan_foldl_counts proj entries scanInit
  have hp := countOutcome_partition proj entries
  constructor
  · rw [process_folder_scan, h1]
    simp only [scanInit]
    omega
  · rw [process_folder_scan, h2, h3]
    simp [scanInit]

/-- C9: Whenever the per-file loop completes (the fold is total, so every
run without a directory-level exception does), the processed counter equals
the number of files found, making the partial-processing report branch
(`processed < file_count`) unreachable. -/
theorem process_folder_scan_processed (proj : Proj)
    (entries : List FileEntry) :
    (process_folder_scan proj entries).processed = entries.length ∧
    ¬((process_folder_scan proj entries).processed < entries.length) := by
  have h := scan_foldl_processed proj entries scanInit
  rw [process_folder_scan]
  rw [h]
  simp [scanInit]

/-- C6 amended: After a scan, sorting the result sequence with the
code's key yields a permutation of it that is sorted ascending by
`(photo_date or "9999", filename)` — ties broken by filename.  (The sentinel
`"9999"` is not maximal among valid timestamps: a timestamp of year 9999
sorts after files without one, see the counterexample.) -/
theorem process_folder_sorted (proj : Proj) (entries : List FileEntry) :
    List.Sorted keyLe
      (sortPhotos (process_folder_scan proj entries).photos) ∧
    List.Perm (sortPhotos (process_folder_scan proj entries).photos)
      (process_folder_scan proj entries).photos :=
  ⟨List.sorted_insertionSort keyLe _, List.perm_insertionSort keyLe _⟩

/-- C6 counterexample: With the sentinel `"9999"`, a record carrying
the valid timestamp `9999:01:01 00:00:00` sorts *after* a record without a
timestamp: the file without a timestamp is first, not last. -/
theorem sort_no_timestamp_not_last_cex :
    sortPhotos
      [{ filename := "a.jpg", nome := "a", customName := none,
         photoDate := some "9999:01:01 00:00:00", description := none,
         latitude := 0, longitude := 0, utmEasting := 0, utmNorthing := 0,
         utmZone := 1, utmHemisphere := 'N', filepath := "a.jpg",
         orientation := none },
       { filename := "b.jpg", nome := "b", customName := none,
         photoDate := none, description := none,
         latitude := 0, longitude := 0, utmEasting := 0, utmNorthing := 0,
         utmZone := 1, utmHemisphere := 'N', filepath := "b.jpg",
         orientation := none }] =
      [{ filename := "b.jpg", nome := "b", customName := none,
         photoDate := none, description := none,
         latitude := 0, longitude := 0, utmEasting := 0, utmNorthing := 0,
         utmZone := 1, utmHemisphere := 'N', filepath := "b.jpg",
         orientation := none },
       { filename := "a.jpg", nome := "a", customName := none,
         photoDate := some "9999:01:01 00:00:00", description := none,
         latitude := 0, longitude := 0, utmEasting := 0, utmNorthing := 0,
         utmZone := 1, utmHemisphere := 'N', filepath := "a.jpg",
         orientation := none }] ∧
    strptimeExifOk "9999:01:01 00:00:00" = true := by
  constructor
  · have hAB : ¬ keyLe
        { filename := "a.jpg", nome := "a", customName := none,
          photoDate := some "9999:01:01 00:00:00", description := none,
          latitude := 0, longitude := 0, utmEasting := 0, utmNorthing := 0,
          utmZone := 1, utmHemisphere := 'N', filepath := "a.jpg",
          orientation := none }
        { filename := "b.jpg", nome := "b", customName := none,
          photoDate := none, description := none,
          latitude := 0, longitude := 0, utmEasting := 0, utmNorthing := 0,
          utmZone := 1, utmHemisphere := 'N', filepath := "b.jpg",
          orientation := none } := by
      unfold keyLe photoSortKey
      simp only [String.lt_iff_toList_lt, String.le_iff_toList_le]
      decide
    simp [sortPhotos, List.insertionSort, List.orderedInsert, hAB]
  · decide
